import Mathlib

/-!
# Validation webhook for VolumeGroupSnapshotClass (pkg/validation-webhook/groupsnapshot.go)

A shallow embedding of `groupSnapshotAdmitter.Admit` and
`decideGroupSnapshotClassV1Beta1`, followed by the properties proved about them.

Modelling conventions.
* Go strings are `String`; `==` on strings is literal equality.
* A Go `map[string]string` is an association list; indexing a key that is
  absent (or indexing a nil map) yields the zero value `""`.
* `lister.List(labels.Everything())` is one read whose outcome is either an
  error (carried as its `Error()` text) or the returned slice.
* Constants and helpers that live outside this source file
  (`utils.IsDefaultGroupSnapshotClassAnnotation`, the API group name, the
  deserializer, `toV1AdmissionResponse`, the formatting of the resource
  mismatch error) are taken as parameters.
-/

namespace Webhook

/-! ## Data model -/

/-- Go `map[string]string`, as an association list. -/
abbrev StringMap := List (String × String)

/-- Go map indexing `m[k]`: the stored value, or `""` when the key is absent. -/
def StringMap.index (m : StringMap) (k : String) : String :=
  match m.lookup k with
  | some v => v
  | none => ""

/-- The fields of `volumegroupsnapshotv1beta1.VolumeGroupSnapshotClass` read by the webhook. -/
structure VolumeGroupSnapshotClass where
  Name : String
  Annotations : StringMap
  Driver : String
  deriving DecidableEq, Repr

/-- The zero value `&VolumeGroupSnapshotClass{}`. -/
def emptyClass : VolumeGroupSnapshotClass :=
  { Name := "", Annotations := [], Driver := "" }

/-- The part of `metav1.Status` written by the webhook. -/
structure Status where
  Message : String
  deriving DecidableEq, Repr

/-- The fields of `v1.AdmissionResponse` (`Result` is a pointer, hence optional). -/
structure AdmissionResponse where
  Allowed : Bool
  Result : Option Status
  Patch : Option (List Nat)
  PatchType : Option String
  deriving DecidableEq, Repr

/-- The literal `&v1.AdmissionResponse{Allowed: true, Result: &metav1.Status{}}`. -/
def allowResponse : AdmissionResponse :=
  { Allowed := true, Result := some { Message := "" }, Patch := none, PatchType := none }

/-- Outcome of `lister.List(labels.Everything())`: an error text or the returned slice. -/
abbrev ListResult := Except String (List VolumeGroupSnapshotClass)

/-- The assignment `reviewResponse.Result.Message = msg` (a nil `Result` would be a
nil dereference; it never is nil here, the response is built with `&metav1.Status{}`). -/
def AdmissionResponse.setMessage (r : AdmissionResponse) (msg : String) : AdmissionResponse :=
  { r with Result := r.Result.map (fun _ => { Message := msg }) }

/-! ## decideGroupSnapshotClassV1Beta1 -/

/-- The test `c.Annotations[utils.IsDefaultGroupSnapshotClassAnnotation] == "true"`. -/
def isDefault ( IsDefaultGroupSnapshotClassAnnotation : String)
    (c : VolumeGroupSnapshotClass) : Bool :=
  c.Annotations.index IsDefaultGroupSnapshotClassAnnotation == "true"

/-- The text `fmt.Sprintf("default group snapshot class: %v already exists for driver: %v", name, driver)`. -/
def conflictMessage (name driver : String) : String :=
  "default group snapshot class: " ++ name ++ " already exists for driver: " ++ driver

/-- The loop `for _, groupSnapshotClass := range ret` of
`decideGroupSnapshotClassV1Beta1` (lines 112-123), with its `continue` and early `return`. -/
def decideLoop ( IsDefaultGroupSnapshotClassAnnotation : String)
    (groupSnapClass : VolumeGroupSnapshotClass) (reviewResponse : AdmissionResponse) :
    List VolumeGroupSnapshotClass → AdmissionResponse
  | [] => reviewResponse
  | groupSnapshotClass :: rest =>
    if groupSnapshotClass.Annotations.index IsDefaultGroupSnapshotClassAnnotation != "true" then
      decideLoop IsDefaultGroupSnapshotClassAnnotation groupSnapClass reviewResponse rest
    else if groupSnapshotClass.Driver == groupSnapClass.Driver then
      ({ reviewResponse with Allowed := false }).setMessage
        (conflictMessage groupSnapshotClass.Name groupSnapClass.Driver)
    else
      decideLoop IsDefaultGroupSnapshotClassAnnotation groupSnapClass reviewResponse rest

/-- The function `decideGroupSnapshotClassV1Beta1` (lines 89-124). -/
def decideGroupSnapshotClassV1Beta1 ( IsDefaultGroupSnapshotClassAnnotation : String)
    (groupSnapClass oldGroupSnapClass : VolumeGroupSnapshotClass) (lister : ListResult) :
    AdmissionResponse :=
  let reviewResponse := allowResponse
  if groupSnapClass.Annotations.index IsDefaultGroupSnapshotClassAnnotation != "true" then
    reviewResponse
  else if oldGroupSnapClass.Annotations.index IsDefaultGroupSnapshotClassAnnotation == "true"
      && oldGroupSnapClass.Driver == groupSnapClass.Driver then
    reviewResponse
  else
    match lister with
    | .error err => ({ reviewResponse with Allowed := false }).setMessage err
    | .ok ret => decideLoop IsDefaultGroupSnapshotClassAnnotation groupSnapClass reviewResponse ret

/-! ## groupSnapshotAdmitter.Admit -/

/-- The type `metav1.GroupVersionResource`. -/
structure GroupVersionResource where
  Group : String
  Version : String
  Resource : String
  deriving DecidableEq, Repr

/-- Operations `v1.Create` and `v1.Update` of k8s.io/api/admission/v1 (`type Operation string`). -/
def Create : String := "CREATE"

/-- Operation `v1.Update`. -/
def Update : String := "UPDATE"

/-- Operation `v1.Delete`. -/
def Delete : String := "DELETE"

/-- Operation `v1.Connect`. -/
def Connect : String := "CONNECT"

/-- The fields of `v1.AdmissionRequest` read by `Admit`; `Object.Raw` and
`OldObject.Raw` are byte strings. -/
structure AdmissionRequest where
  Resource : GroupVersionResource
  Operation : String
  Object : List Nat
  OldObject : List Nat
  deriving DecidableEq, Repr

/-- The type `v1.AdmissionReview`; `Request` is a pointer, hence optional. -/
structure AdmissionReview where
  Request : Option AdmissionRequest
  deriving DecidableEq, Repr

/-- What `Admit` uses from outside this source file.
* `GroupName` is `volumegroupsnapshotv1beta1.GroupName`.
* `Decode raw` is `deserializer.Decode(raw, nil, into)` for a fresh `into`: the
  error text, or the content of `into` afterwards.
* `toV1AdmissionResponse` is the helper of that name, applied to an error text.
* `resourceError want got` is the text of
  `fmt.Errorf("expect resource to be %s, but found %v", want, got)`. -/
structure Externals where
  GroupName : String
  Decode : List Nat → Except String VolumeGroupSnapshotClass
  toV1AdmissionResponse : String → AdmissionResponse
  resourceError : GroupVersionResource → GroupVersionResource → String

/-- The variable `GroupSnapshotClassV1Beta1GVR` (line 33). -/
def GroupSnapshotClassV1Beta1GVR (x : Externals) : GroupVersionResource :=
  { Group := x.GroupName, Version := "v1beta1", Resource := "volumegroupsnapshotclasses" }

/-- The method `groupSnapshotAdmitter.Admit` (lines 51-87); `lister` is the outcome the
admitter's lister gives when it is asked. The result is `none` when `ar.Request` is
nil (a nil dereference at line 60). -/
def Admit (x : Externals) ( IsDefaultGroupSnapshotClassAnnotation : String)
    (lister : ListResult) (ar : AdmissionReview) : Option AdmissionResponse :=
  let reviewResponse := allowResponse
  match ar.Request with
  | none => none
  | some req =>
    if !(req.Operation == Update || req.Operation == Create) then
      some reviewResponse
    else
      let raw := req.Object
      let oldRaw := req.OldObject
      if req.Resource = GroupSnapshotClassV1Beta1GVR x then
        match x.Decode raw with
        | .error err => some (x.toV1AdmissionResponse err)
        | .ok groupSnapClass =>
          match x.Decode oldRaw with
          | .error err => some (x.toV1AdmissionResponse err)
          | .ok oldGroupSnapClass =>
            some (decideGroupSnapshotClassV1Beta1 IsDefaultGroupSnapshotClassAnnotation
              groupSnapClass oldGroupSnapClass lister)
      else
        some (x.toV1AdmissionResponse
          (x.resourceError (GroupSnapshotClassV1Beta1GVR x) req.Resource))

/-! ## The store of committed classes and the writes the webhook gates -/

/-- The committed classes, keyed by `Name`. -/
abbrev Store := List VolumeGroupSnapshotClass

/-- Names in the store are unique. -/
def Store.UniqueNames (s : Store) : Prop :=
  (s.map (fun c => c.Name)).Nodup

/-- Number of classes of the store that are default for `driver`. -/
def Store.defaultCount ( IsDefaultGroupSnapshotClassAnnotation : String) (s : Store)
    (driver : String) : Nat :=
  (s.filter (fun c =>
    isDefault IsDefaultGroupSnapshotClassAnnotation c && c.Driver == driver)).length

/-- At most one class is default, for every driver. -/
def Store.AtMostOneDefault ( IsDefaultGroupSnapshotClassAnnotation : String) (s : Store) : Prop :=
  ∀ driver : String, s.defaultCount IsDefaultGroupSnapshotClassAnnotation driver ≤ 1

/-- A request against the store. `view` is the slice the lister returns while the
request is being validated. -/
inductive Op where
  | delete (name : String)
  | create (newObj : VolumeGroupSnapshotClass) (view : List VolumeGroupSnapshotClass)
  | update (newObj : VolumeGroupSnapshotClass) (view : List VolumeGroupSnapshotClass)
  deriving DecidableEq, Repr

/-- One step of the store. A delete removes the class of that name. A create of a
name not yet stored is validated against the empty old object, an update against
the stored class of the same name; either is committed only when the lister's
`view` is the current store (in any order) and the webhook allows it. Every other
request leaves the store as it is. -/
def Store.step ( IsDefaultGroupSnapshotClassAnnotation : String) (s : Store) : Op → Store
  | .delete name => s.filter (fun c => c.Name != name)
  | .create newObj view =>
    if s.any (fun c => c.Name == newObj.Name) then s
    else if view.isPerm s
        && (decideGroupSnapshotClassV1Beta1 IsDefaultGroupSnapshotClassAnnotation
              newObj emptyClass (.ok view)).Allowed then
      s ++ [newObj]
    else s
  | .update newObj view =>
    match s.find? (fun c => c.Name == newObj.Name) with
    | none => s
    | some oldObj =>
      if view.isPerm s
          && (decideGroupSnapshotClassV1Beta1 IsDefaultGroupSnapshotClassAnnotation
                newObj oldObj (.ok view)).Allowed then
        s.map (fun c => if c.Name == newObj.Name then newObj else c)
      else s

/-- The store after a finite sequence of requests. -/
def Store.run ( IsDefaultGroupSnapshotClassAnnotation : String) (s : Store) (ops : List Op) :
    Store :=
  ops.foldl (fun st op => st.step IsDefaultGroupSnapshotClassAnnotation op) s

/-! ## Concrete classes used to evaluate the functions -/

/-- A class `name` of `driver` whose only annotation marks it as default under key `k`. -/
def defaultClass (k name driver : String) : VolumeGroupSnapshotClass :=
  { Name := name, Annotations := [(k, "true")], Driver := driver }

/-- A class `name` of `driver` whose annotation under key `k` has the value `v`. -/
def annotatedClass (k v name driver : String) : VolumeGroupSnapshotClass :=
  { Name := name, Annotations := [(k, v)], Driver := driver }

/-- A class `name` of `driver` without annotations. -/
def plainClass (name driver : String) : VolumeGroupSnapshotClass :=
  { Name := name, Annotations := [], Driver := driver }

/-! ## Auxiliary facts about the decision function -/

/-- A denial carrying `msg`: what the two denying branches build from the initial response. -/
def denyResponse (msg : String) : AdmissionResponse :=
  { Allowed := false, Result := some { Message := msg }, Patch := none, PatchType := none }

/-- The classes of the enumeration that the loop reacts to: default, and of the
driver of the submitted class. -/
def conflictsWith ( IsDefaultGroupSnapshotClassAnnotation : String)
    (groupSnapClass : VolumeGroupSnapshotClass) (c : VolumeGroupSnapshotClass) : Bool :=
  isDefault IsDefaultGroupSnapshotClassAnnotation c && c.Driver == groupSnapClass.Driver

theorem conflictsWith_iff (key : String) (n c : VolumeGroupSnapshotClass) :
    conflictsWith key n c = true ↔
      c.Annotations.index key = "true" ∧ c.Driver = n.Driver := by
  simp [conflictsWith, isDefault]

/-- The loop, started on the initial response, reports the first conflicting class. -/
theorem decideLoop_eq_find (key : String) (n : VolumeGroupSnapshotClass)
    (L : List VolumeGroupSnapshotClass) :
    decideLoop key n allowResponse L =
      match L.find? (conflictsWith key n) with
      | some c => denyResponse (conflictMessage c.Name n.Driver)
      | none => allowResponse := by
  induction L with
  | nil => rfl
  | cons c rest ih =>
    by_cases hd : c.Annotations.index key = "true"
    · by_cases hdrv : c.Driver = n.Driver
      · have hc : conflictsWith key n c = true := (conflictsWith_iff key n c).2 ⟨hd, hdrv⟩
        simp [decideLoop, hd, hdrv, List.find?_cons, hc, denyResponse, allowResponse,
          AdmissionResponse.setMessage]
      · have hc : conflictsWith key n c = false := by
          simp [conflictsWith, hdrv]
        simp [decideLoop, hd, hdrv, List.find?_cons, hc, ih]
    · have hc : conflictsWith key n c = false := by
        simp [conflictsWith, isDefault, hd]
      simp [decideLoop, hd, List.find?_cons, hc, ih]

/-- When the enumeration is reached and succeeds, the verdict is that of the loop. -/
theorem decide_ok_eq_find (key : String) (n o : VolumeGroupSnapshotClass)
    (L : List VolumeGroupSnapshotClass)
    (hnew : n.Annotations.index key = "true")
    (hold : ¬ (o.Annotations.index key = "true" ∧ o.Driver = n.Driver)) :
    decideGroupSnapshotClassV1Beta1 key n o (.ok L) =
      match L.find? (conflictsWith key n) with
      | some c => denyResponse (conflictMessage c.Name n.Driver)
      | none => allowResponse := by
  have h2 : ¬ ((o.Annotations.index key == "true" && o.Driver == n.Driver) = true) := by
    simpa using hold
  simp only [decideGroupSnapshotClassV1Beta1, hnew, bne_self_eq_false, Bool.false_eq_true,
    if_false, h2]
  exact decideLoop_eq_find key n L

/-- When the enumeration is reached and fails, the verdict is a denial with the error text. -/
theorem decide_error_eq (key : String) (n o : VolumeGroupSnapshotClass) (e : String)
    (hnew : n.Annotations.index key = "true")
    (hold : ¬ (o.Annotations.index key = "true" ∧ o.Driver = n.Driver)) :
    decideGroupSnapshotClassV1Beta1 key n o (.error e) = denyResponse e := by
  have h2 : ¬ ((o.Annotations.index key == "true" && o.Driver == n.Driver) = true) := by
    simpa using hold
  simp only [decideGroupSnapshotClassV1Beta1, hnew, bne_self_eq_false, Bool.false_eq_true,
    if_false, h2]
  rfl

/-- A class that does not claim default status is allowed before the lister is asked. -/
theorem decide_not_default_eq (key : String) (n o : VolumeGroupSnapshotClass)
    (lister : ListResult) (hnew : n.Annotations.index key ≠ "true") :
    decideGroupSnapshotClassV1Beta1 key n o lister = allowResponse := by
  simp [decideGroupSnapshotClassV1Beta1, hnew]

/-- A default class re-saved for the same driver is allowed before the lister is asked. -/
theorem decide_resave_eq (key : String) (n o : VolumeGroupSnapshotClass)
    (lister : ListResult) (hold : o.Annotations.index key = "true")
    (hdrv : o.Driver = n.Driver) :
    decideGroupSnapshotClassV1Beta1 key n o lister = allowResponse := by
  by_cases hnew : n.Annotations.index key = "true"
  · simp [decideGroupSnapshotClassV1Beta1, hnew, hold, hdrv]
  · exact decide_not_default_eq key n o lister hnew

/-! ## Properties of `decideGroupSnapshotClassV1Beta1` -/

/-- Claim C2. Exact characterisation of denial: when the submitted class has the
default annotation equal to `"true"`, the old class is not a default of the same
driver, and the lister returns `L` without error, the verdict is `Allowed = false`
exactly when some class of `L` is default and has the driver of the submitted class.
Drivers are arbitrary strings compared literally, the empty one included. -/
theorem decide_denies_iff_conflict ( IsDefaultGroupSnapshotClassAnnotation : String)
    (newObj oldObj : VolumeGroupSnapshotClass) (L : List VolumeGroupSnapshotClass)
    (hnew : newObj.Annotations.index IsDefaultGroupSnapshotClassAnnotation = "true")
    (hold : ¬ (oldObj.Annotations.index IsDefaultGroupSnapshotClassAnnotation = "true"
      ∧ oldObj.Driver = newObj.Driver)) :
    (decideGroupSnapshotClassV1Beta1 IsDefaultGroupSnapshotClassAnnotation
        newObj oldObj (.ok L)).Allowed = false ↔
      ∃ c ∈ L, c.Annotations.index IsDefaultGroupSnapshotClassAnnotation = "true"
        ∧ c.Driver = newObj.Driver := by
  rw [decide_ok_eq_find IsDefaultGroupSnapshotClassAnnotation newObj oldObj L hnew hold]
  cases hf : L.find? (conflictsWith IsDefaultGroupSnapshotClassAnnotation newObj) with
  | none =>
    have hnone := List.find?_eq_none.1 hf
    constructor
    · intro h
      simp [allowResponse] at h
    · rintro ⟨c, hc, hd, hdrv⟩
      exact absurd ((conflictsWith_iff _ newObj c).2 ⟨hd, hdrv⟩) (hnone c hc)
  | some c =>
    constructor
    · intro _
      exact ⟨c, List.mem_of_find?_eq_some hf,
        (conflictsWith_iff _ newObj c).1 (List.find?_some hf)⟩
    · intro _
      rfl

/-- Claim C2 at a concrete input: a create of default class `B` with the empty driver,
while default class `A` with the empty driver is listed. -/
theorem decide_denies_iff_conflict_witness :
    (decideGroupSnapshotClassV1Beta1 "is-default" (defaultClass "is-default" "B" "")
        emptyClass (.ok [defaultClass "is-default" "A" ""])).Allowed = false ↔
      ∃ c ∈ [defaultClass "is-default" "A" ""],
        c.Annotations.index "is-default" = "true"
          ∧ c.Driver = (defaultClass "is-default" "B" "").Driver :=
  decide_denies_iff_conflict "is-default" (defaultClass "is-default" "B" "") emptyClass
    [defaultClass "is-default" "A" ""] (by decide) (by decide)

/-- Claim C3. A submitted class whose default annotation is absent or is any string
other than exactly `"true"` is allowed with an empty message, whatever the old class
is and whatever the lister would return (a list or an error). -/
theorem decide_allows_non_default ( IsDefaultGroupSnapshotClassAnnotation : String)
    (newObj oldObj : VolumeGroupSnapshotClass) (lister : ListResult)
    (hnew : newObj.Annotations.index IsDefaultGroupSnapshotClassAnnotation ≠ "true") :
    (decideGroupSnapshotClassV1Beta1 IsDefaultGroupSnapshotClassAnnotation
        newObj oldObj lister).Allowed = true
      ∧ (decideGroupSnapshotClassV1Beta1 IsDefaultGroupSnapshotClassAnnotation
          newObj oldObj lister).Result = some { Message := "" } := by
  rw [decide_not_default_eq IsDefaultGroupSnapshotClassAnnotation newObj oldObj lister hnew]
  exact ⟨rfl, rfl⟩

/-- Claim C3 at a concrete input: the annotation value `"True"` is not `"true"`, and a
failing lister does not matter. -/
theorem decide_allows_non_default_witness :
    (decideGroupSnapshotClassV1Beta1 "is-default"
        (annotatedClass "is-default" "True" "B" "d1") emptyClass
        (.error "lister unavailable")).Allowed = true
      ∧ (decideGroupSnapshotClassV1Beta1 "is-default"
        (annotatedClass "is-default" "True" "B" "d1") emptyClass
        (.error "lister unavailable")).Result = some { Message := "" } :=
  decide_allows_non_default "is-default" (annotatedClass "is-default" "True" "B" "d1")
    emptyClass (.error "lister unavailable") (by decide)

/-- Claim C4. Idempotent re-save: when the submitted class and the old class both have
the default annotation equal to `"true"` and the same driver, the verdict is
`Allowed = true` for every lister outcome, an error or any list. -/
theorem decide_allows_resave ( IsDefaultGroupSnapshotClassAnnotation : String)
    (newObj oldObj : VolumeGroupSnapshotClass) (lister : ListResult)
    (hnew : newObj.Annotations.index IsDefaultGroupSnapshotClassAnnotation = "true")
    (hold : oldObj.Annotations.index IsDefaultGroupSnapshotClassAnnotation = "true")
    (hdrv : oldObj.Driver = newObj.Driver) :
    (decideGroupSnapshotClassV1Beta1 IsDefaultGroupSnapshotClassAnnotation
        newObj oldObj lister).Allowed = true := by
  have _ := hnew
  rw [decide_resave_eq IsDefaultGroupSnapshotClassAnnotation newObj oldObj lister hold hdrv]
  rfl

/-- Claim C4 at a concrete input: the list already holds another default class of the
same driver, and the re-save is allowed all the same. -/
theorem decide_allows_resave_witness :
    (decideGroupSnapshotClassV1Beta1 "is-default" (defaultClass "is-default" "A" "d1")
        (defaultClass "is-default" "A" "d1")
        (.ok [defaultClass "is-default" "A" "d1",
          defaultClass "is-default" "Z" "d1"])).Allowed = true :=
  decide_allows_resave "is-default" (defaultClass "is-default" "A" "d1")
    (defaultClass "is-default" "A" "d1")
    (.ok [defaultClass "is-default" "A" "d1", defaultClass "is-default" "Z" "d1"])
    (by decide) (by decide) (by decide)

/-- Claim C5. Fail closed on a reached read failure: when the submitted class has the
default annotation equal to `"true"`, the old class is not a default of the same
driver, and the lister returns the error `e`, the verdict is `Allowed = false` and
the message is exactly the text of `e`. -/
theorem decide_fails_closed ( IsDefaultGroupSnapshotClassAnnotation : String)
    (newObj oldObj : VolumeGroupSnapshotClass) (e : String)
    (hnew : newObj.Annotations.index IsDefaultGroupSnapshotClassAnnotation = "true")
    (hold : ¬ (oldObj.Annotations.index IsDefaultGroupSnapshotClassAnnotation = "true"
      ∧ oldObj.Driver = newObj.Driver)) :
    (decideGroupSnapshotClassV1Beta1 IsDefaultGroupSnapshotClassAnnotation
        newObj oldObj (.error e)).Allowed = false
      ∧ (decideGroupSnapshotClassV1Beta1 IsDefaultGroupSnapshotClassAnnotation
          newObj oldObj (.error e)).Result = some { Message := e } := by
  rw [decide_error_eq IsDefaultGroupSnapshotClassAnnotation newObj oldObj e hnew hold]
  exact ⟨rfl, rfl⟩

/-- Claim C5 at a concrete input: a create of a default class while the lister fails. -/
theorem decide_fails_closed_witness :
    (decideGroupSnapshotClassV1Beta1 "is-default" (defaultClass "is-default" "B" "d1")
        emptyClass (.error "lister unavailable")).Allowed = false
      ∧ (decideGroupSnapshotClassV1Beta1 "is-default" (defaultClass "is-default" "B" "d1")
        emptyClass (.error "lister unavailable")).Result
          = some { Message := "lister unavailable" } :=
  decide_fails_closed "is-default" (defaultClass "is-default" "B" "d1") emptyClass
    "lister unavailable" (by decide) (by decide)

/-- Claim C6, as stated, fails: a class that does not claim default status is allowed
although the lister fails, because the lister is not asked at all. -/
theorem decide_lister_error_not_always_denied :
    ¬ ((decideGroupSnapshotClassV1Beta1 "is-default" (plainClass "B" "d1") emptyClass
          (.error "lister unavailable")).Allowed = false
        ∧ (decideGroupSnapshotClassV1Beta1 "is-default" (plainClass "B" "d1") emptyClass
          (.error "lister unavailable")).Result
            = some { Message := "lister unavailable" }) := by
  decide

/-- Claim C6, amended. With a failing lister (error text `e`) the verdict is a denial
whose message is `e` when the submitted class has the default annotation equal to
`"true"` and the old class is not a default of the same driver; for every other pair
of submitted and old class the lister is not asked and the verdict is
`Allowed = true` with an empty message. -/
theorem decide_on_lister_error ( IsDefaultGroupSnapshotClassAnnotation : String)
    (newObj oldObj : VolumeGroupSnapshotClass) (e : String) :
    decideGroupSnapshotClassV1Beta1 IsDefaultGroupSnapshotClassAnnotation
        newObj oldObj (.error e) =
      if newObj.Annotations.index IsDefaultGroupSnapshotClassAnnotation = "true"
          ∧ ¬ (oldObj.Annotations.index IsDefaultGroupSnapshotClassAnnotation = "true"
            ∧ oldObj.Driver = newObj.Driver) then
        { Allowed := false, Result := some { Message := e }, Patch := none, PatchType := none }
      else
        { Allowed := true, Result := some { Message := "" }, Patch := none, PatchType := none } := by
  by_cases hnew : newObj.Annotations.index IsDefaultGroupSnapshotClassAnnotation = "true"
  · by_cases hold : oldObj.Annotations.index IsDefaultGroupSnapshotClassAnnotation = "true"
        ∧ oldObj.Driver = newObj.Driver
    · rw [decide_resave_eq _ newObj oldObj _ hold.1 hold.2, if_neg (fun h => h.2 hold)]
      rfl
    · rw [decide_error_eq _ newObj oldObj e hnew hold, if_pos ⟨hnew, hold⟩]
      rfl
  · rw [decide_not_default_eq _ newObj oldObj _ hnew, if_neg (fun h => hnew h.1)]
    rfl

/-- Claim C7. Policy-violation message: whenever the verdict after a successful
enumeration `L` is a denial, the message is exactly
`"default group snapshot class: " ++ c.Name ++ " already exists for driver: " ++ newObj.Driver`
where `c` is the first class of `L`, in list order, that is default and has the
driver of the submitted class; so `c` is in `L`, is default and shares that driver. -/
theorem decide_denial_message ( IsDefaultGroupSnapshotClassAnnotation : String)
    (newObj oldObj : VolumeGroupSnapshotClass) (L : List VolumeGroupSnapshotClass)
    (hdeny : (decideGroupSnapshotClassV1Beta1 IsDefaultGroupSnapshotClassAnnotation
        newObj oldObj (.ok L)).Allowed = false) :
    ∃ c : VolumeGroupSnapshotClass,
      L.find? (fun c => c.Annotations.index IsDefaultGroupSnapshotClassAnnotation == "true"
          && c.Driver == newObj.Driver) = some c
      ∧ (decideGroupSnapshotClassV1Beta1 IsDefaultGroupSnapshotClassAnnotation
          newObj oldObj (.ok L)).Result =
        some { Message := "default group snapshot class: " ++ c.Name
          ++ " already exists for driver: " ++ newObj.Driver }
      ∧ c ∈ L
      ∧ c.Annotations.index IsDefaultGroupSnapshotClassAnnotation = "true"
      ∧ c.Driver = newObj.Driver := by
  have hfun : (fun c : VolumeGroupSnapshotClass =>
      c.Annotations.index IsDefaultGroupSnapshotClassAnnotation == "true"
        && c.Driver == newObj.Driver)
      = conflictsWith IsDefaultGroupSnapshotClassAnnotation newObj := rfl
  rw [hfun]
  by_cases hnew : newObj.Annotations.index IsDefaultGroupSnapshotClassAnnotation = "true"
  · by_cases hold : oldObj.Annotations.index IsDefaultGroupSnapshotClassAnnotation = "true"
        ∧ oldObj.Driver = newObj.Driver
    · rw [decide_resave_eq _ newObj oldObj _ hold.1 hold.2] at hdeny
      simp [allowResponse] at hdeny
    · rw [decide_ok_eq_find _ newObj oldObj L hnew hold] at hdeny ⊢
      cases hf : L.find? (conflictsWith IsDefaultGroupSnapshotClassAnnotation newObj) with
      | none =>
        rw [hf] at hdeny
        simp [allowResponse] at hdeny
      | some c =>
        have hc := (conflictsWith_iff _ newObj c).1 (List.find?_some hf)
        exact ⟨c, rfl, rfl, List.mem_of_find?_eq_some hf, hc.1, hc.2⟩
  · rw [decide_not_default_eq _ newObj oldObj _ hnew] at hdeny
    simp [allowResponse] at hdeny

/-- Claim C7 at a concrete input: two default classes of driver `d1` are listed after
one of driver `d2`, and the message names the first of the two. -/
theorem decide_denial_message_witness :
    ∃ c : VolumeGroupSnapshotClass,
      [defaultClass "is-default" "C" "d2", defaultClass "is-default" "A" "d1",
          defaultClass "is-default" "Z" "d1"].find?
        (fun c => c.Annotations.index "is-default" == "true"
          && c.Driver == (defaultClass "is-default" "B" "d1").Driver) = some c
      ∧ (decideGroupSnapshotClassV1Beta1 "is-default" (defaultClass "is-default" "B" "d1")
          emptyClass
          (.ok [defaultClass "is-default" "C" "d2", defaultClass "is-default" "A" "d1",
            defaultClass "is-default" "Z" "d1"])).Result =
        some { Message := "default group snapshot class: " ++ c.Name
          ++ " already exists for driver: " ++ (defaultClass "is-default" "B" "d1").Driver }
      ∧ c ∈ [defaultClass "is-default" "C" "d2", defaultClass "is-default" "A" "d1",
          defaultClass "is-default" "Z" "d1"]
      ∧ c.Annotations.index "is-default" = "true"
      ∧ c.Driver = (defaultClass "is-default" "B" "d1").Driver :=
  decide_denial_message "is-default" (defaultClass "is-default" "B" "d1") emptyClass
    [defaultClass "is-default" "C" "d2", defaultClass "is-default" "A" "d1",
      defaultClass "is-default" "Z" "d1"]
    (by decide)

/-- Claim C8. Driver flip is a fresh claim: when the submitted class and the old class
both have the default annotation equal to `"true"` but different drivers, the
response is, for every lister outcome, the one of the create case (old class empty);
in particular it is a denial when the lister returns a list holding a default class
of the new driver. -/
theorem decide_driver_flip_as_create ( IsDefaultGroupSnapshotClassAnnotation : String)
    (newObj oldObj : VolumeGroupSnapshotClass) (lister : ListResult)
    (hnew : newObj.Annotations.index IsDefaultGroupSnapshotClassAnnotation = "true")
    (hold : oldObj.Annotations.index IsDefaultGroupSnapshotClassAnnotation = "true")
    (hdrv : oldObj.Driver ≠ newObj.Driver) :
    decideGroupSnapshotClassV1Beta1 IsDefaultGroupSnapshotClassAnnotation
        newObj oldObj lister
      = decideGroupSnapshotClassV1Beta1 IsDefaultGroupSnapshotClassAnnotation
        newObj emptyClass lister
    ∧ ∀ L : List VolumeGroupSnapshotClass, lister = .ok L →
        (∃ c ∈ L, c.Annotations.index IsDefaultGroupSnapshotClassAnnotation = "true"
          ∧ c.Driver = newObj.Driver) →
        (decideGroupSnapshotClassV1Beta1 IsDefaultGroupSnapshotClassAnnotation
          newObj oldObj lister).Allowed = false := by
  have _ := hold
  have h1 : ¬ (oldObj.Annotations.index IsDefaultGroupSnapshotClassAnnotation = "true"
      ∧ oldObj.Driver = newObj.Driver) := fun h => hdrv h.2
  have h2 : ¬ (emptyClass.Annotations.index IsDefaultGroupSnapshotClassAnnotation = "true"
      ∧ emptyClass.Driver = newObj.Driver) := by
    intro h
    have h0 : emptyClass.Annotations.index IsDefaultGroupSnapshotClassAnnotation = "" := rfl
    rw [h0] at h
    exact absurd h.1 (by decide)
  constructor
  · cases lister with
    | error e =>
      rw [decide_error_eq _ newObj oldObj e hnew h1, decide_error_eq _ newObj emptyClass e hnew h2]
    | ok L =>
      rw [decide_ok_eq_find _ newObj oldObj L hnew h1,
        decide_ok_eq_find _ newObj emptyClass L hnew h2]
  · rintro L rfl ⟨c, hc, hd, hcd⟩
    rw [decide_ok_eq_find _ newObj oldObj L hnew h1]
    cases hf : L.find? (conflictsWith IsDefaultGroupSnapshotClassAnnotation newObj) with
    | none =>
      exact absurd ((conflictsWith_iff _ newObj c).2 ⟨hd, hcd⟩)
        (List.find?_eq_none.1 hf c hc)
    | some c0 => rfl

/-- Claim C8 at a concrete input: class `A` moves from driver `d1` to `d2` and stays
default, while class `C` is default for `d2`. -/
theorem decide_driver_flip_as_create_witness :
    decideGroupSnapshotClassV1Beta1 "is-default" (defaultClass "is-default" "A" "d2")
        (defaultClass "is-default" "A" "d1")
        (.ok [defaultClass "is-default" "A" "d1", defaultClass "is-default" "C" "d2"])
      = decideGroupSnapshotClassV1Beta1 "is-default" (defaultClass "is-default" "A" "d2")
        emptyClass
        (.ok [defaultClass "is-default" "A" "d1", defaultClass "is-default" "C" "d2"])
    ∧ ∀ L : List VolumeGroupSnapshotClass,
        (.ok [defaultClass "is-default" "A" "d1", defaultClass "is-default" "C" "d2"] :
          ListResult) = .ok L →
        (∃ c ∈ L, c.Annotations.index "is-default" = "true"
          ∧ c.Driver = (defaultClass "is-default" "A" "d2").Driver) →
        (decideGroupSnapshotClassV1Beta1 "is-default" (defaultClass "is-default" "A" "d2")
          (defaultClass "is-default" "A" "d1")
          (.ok [defaultClass "is-default" "A" "d1",
            defaultClass "is-default" "C" "d2"])).Allowed = false :=
  decide_driver_flip_as_create "is-default" (defaultClass "is-default" "A" "d2")
    (defaultClass "is-default" "A" "d1")
    (.ok [defaultClass "is-default" "A" "d1", defaultClass "is-default" "C" "d2"])
    (by decide) (by decide) (by decide)

/-! ## Properties of `Admit` -/

/-- Externals under which nothing decodes: every payload is rejected by the
deserializer, and `toV1AdmissionResponse` builds a denial carrying the error text. -/
def undecodable : Externals :=
  { GroupName := "groupsnapshot.storage.k8s.io"
    Decode := fun _ => .error "cannot decode"
    toV1AdmissionResponse := fun err =>
      { Allowed := false, Result := some { Message := err }, Patch := none, PatchType := none }
    resourceError := fun _ _ => "unexpected resource" }

/-- A Delete request for a resource type other than the group snapshot classes, with
a payload byte that is no object. -/
def podsDelete : AdmissionRequest :=
  { Resource := { Group := "", Version := "v1", Resource := "pods" }
    Operation := Delete
    Object := [0]
    OldObject := [] }

/-- Claim C9. For every admission review whose operation is neither Create nor Update,
`Admit` returns `Allowed = true` with an empty result message (and no patch),
whatever the resource type, the object and old-object payloads, the deserializer and
the lister outcome are. -/
theorem Admit_allows_other_operations (x : Externals)
    ( IsDefaultGroupSnapshotClassAnnotation : String) (lister : ListResult)
    (req : AdmissionRequest)
    (hop : req.Operation ≠ Create ∧ req.Operation ≠ Update) :
    Admit x IsDefaultGroupSnapshotClassAnnotation lister { Request := some req }
      = some { Allowed := true, Result := some { Message := "" }, Patch := none, PatchType := none } := by
  simp [Admit, hop.1, hop.2, allowResponse]

/-- Claim C9 at a concrete input: a Delete of some other resource type, with payloads
that do not decode and a failing lister. -/
theorem Admit_allows_other_operations_witness :
    Admit undecodable "is-default" (.error "lister unavailable")
        { Request := some podsDelete }
      = some { Allowed := true, Result := some { Message := "" }, Patch := none, PatchType := none } :=
  Admit_allows_other_operations undecodable "is-default" (.error "lister unavailable")
    podsDelete
    (by decide)

/-- Claim C10. Irrelevant classes are filtered out: for every submitted class, old
class and successfully returned list `L`, the response on `L` is the response on the
sub-list of `L` that keeps only the classes that are default and have the driver of
the submitted class; the other classes never change the verdict or the message. -/
theorem decide_filter_relevant ( IsDefaultGroupSnapshotClassAnnotation : String)
    (newObj oldObj : VolumeGroupSnapshotClass) (L : List VolumeGroupSnapshotClass) :
    decideGroupSnapshotClassV1Beta1 IsDefaultGroupSnapshotClassAnnotation
        newObj oldObj (.ok L)
      = decideGroupSnapshotClassV1Beta1 IsDefaultGroupSnapshotClassAnnotation
        newObj oldObj
        (.ok (L.filter (fun c =>
          c.Annotations.index IsDefaultGroupSnapshotClassAnnotation == "true"
            && c.Driver == newObj.Driver))) := by
  have hfun : (fun c : VolumeGroupSnapshotClass =>
      c.Annotations.index IsDefaultGroupSnapshotClassAnnotation == "true"
        && c.Driver == newObj.Driver)
      = conflictsWith IsDefaultGroupSnapshotClassAnnotation newObj := rfl
  rw [hfun]
  by_cases hnew : newObj.Annotations.index IsDefaultGroupSnapshotClassAnnotation = "true"
  · by_cases hold : oldObj.Annotations.index IsDefaultGroupSnapshotClassAnnotation = "true"
        ∧ oldObj.Driver = newObj.Driver
    · rw [decide_resave_eq _ newObj oldObj _ hold.1 hold.2,
        decide_resave_eq _ newObj oldObj _ hold.1 hold.2]
    · rw [decide_ok_eq_find _ newObj oldObj L hnew hold,
        decide_ok_eq_find _ newObj oldObj _ hnew hold, List.find?_filter]
      simp
  · rw [decide_not_default_eq _ newObj oldObj _ hnew,
      decide_not_default_eq _ newObj oldObj _ hnew]

/-! ## The uniqueness invariant of the store -/

/-- An allowed verdict on a reached, successful enumeration means that no listed
class is default for the driver of the submitted class. -/
theorem no_conflict_of_allowed (key : String) (n o : VolumeGroupSnapshotClass)
    (L : List VolumeGroupSnapshotClass)
    (hnew : n.Annotations.index key = "true")
    (hold : ¬ (o.Annotations.index key = "true" ∧ o.Driver = n.Driver))
    (hallow : (decideGroupSnapshotClassV1Beta1 key n o (.ok L)).Allowed = true) :
    ∀ c ∈ L, conflictsWith key n c = false := by
  rw [decide_ok_eq_find key n o L hnew hold] at hallow
  cases hf : L.find? (conflictsWith key n) with
  | none =>
    intro c hc
    simpa using List.find?_eq_none.1 hf c hc
  | some c0 =>
    rw [hf] at hallow
    simp [denyResponse] at hallow

theorem defaultCount_eq_countP (key : String) (s : Store) (driver : String) :
    s.defaultCount key driver
      = s.countP (fun c => isDefault key c && c.Driver == driver) := by
  simp [Store.defaultCount, List.countP_eq_length_filter]

/-- With unique names, at most one stored class carries a given name. -/
theorem countP_name_le_one (s : Store) (hu : s.UniqueNames) (name : String) :
    s.countP (fun c => c.Name == name) ≤ 1 := by
  have h1 : s.countP (fun c => c.Name == name)
      = (s.map (fun c => c.Name)).countP (fun x => x == name) := by
    rw [List.countP_map]
    rfl
  rw [h1, ← List.count_eq_countP]
  exact List.nodup_iff_count_le_one.1 hu name

theorem step_uniqueNames (key : String) (s : Store) (op : Op) (hu : s.UniqueNames) :
    (s.step key op).UniqueNames := by
  cases op with
  | delete name =>
    exact List.Nodup.sublist ((List.filter_sublist s).map _) hu
  | create newObj view =>
    simp only [Store.step]
    split
    · exact hu
    · rename_i hfresh
      split
      · unfold Store.UniqueNames
        rw [List.map_append, List.nodup_append]
        refine ⟨hu, by simp, ?_⟩
        intro x hx hx2
        simp only [List.map_cons, List.map_nil, List.mem_singleton] at hx2
        rcases List.mem_map.1 hx with ⟨c, hc, hcx⟩
        apply hfresh
        rw [List.any_eq_true]
        exact ⟨c, hc, by simp [hcx, hx2]⟩
      · exact hu
  | update newObj view =>
    simp only [Store.step]
    split
    · exact hu
    · split
      · unfold Store.UniqueNames
        rw [List.map_map]
        have hmap : s.map ((fun c : VolumeGroupSnapshotClass => c.Name)
            ∘ fun c => if (c.Name == newObj.Name) = true then newObj else c)
            = s.map (fun c => c.Name) := by
          apply List.map_congr_left
          intro c _
          by_cases h : c.Name = newObj.Name <;> simp [h]
        rw [hmap]
        exact hu
      · exact hu

theorem step_atMostOneDefault (key : String) (s : Store) (op : Op) (hu : s.UniqueNames)
    (hinv : s.AtMostOneDefault key) : (s.step key op).AtMostOneDefault key := by
  intro d
  have hd := hinv d
  rw [defaultCount_eq_countP] at hd ⊢
  cases op with
  | delete name =>
    exact le_trans ((List.filter_sublist s).countP_le _) hd
  | create newObj view =>
    simp only [Store.step]
    split
    · exact hd
    · split
      · rename_i hcommit
        rw [Bool.and_eq_true] at hcommit
        obtain ⟨hperm, hallow⟩ := hcommit
        have hperm2 := List.isPerm_iff.1 hperm
        rw [List.countP_append]
        by_cases hP : (isDefault key newObj && newObj.Driver == d) = true
        · have hP2 : isDefault key newObj = true ∧ newObj.Driver = d := by simpa using hP
          have hnew : newObj.Annotations.index key = "true" := by
            simpa [isDefault] using hP2.1
          have hold : ¬ (emptyClass.Annotations.index key = "true"
              ∧ emptyClass.Driver = newObj.Driver) := by
            intro h
            have h0 : emptyClass.Annotations.index key = "" := rfl
            rw [h0] at h
            exact absurd h.1 (by decide)
          have hno := no_conflict_of_allowed key newObj emptyClass view hnew hold hallow
          have hzero : s.countP (fun c => isDefault key c && c.Driver == d) = 0 := by
            rw [List.countP_eq_zero]
            intro c hc
            have := hno c (hperm2.mem_iff.2 hc)
            rw [← hP2.2]
            simpa [conflictsWith] using this
          rw [hzero, Nat.zero_add]
          exact le_trans (List.countP_le_length _) (by simp)
        · have : [newObj].countP (fun c => isDefault key c && c.Driver == d) = 0 := by
            rw [List.countP_eq_zero]
            intro c hc
            rw [List.mem_singleton] at hc
            rw [hc]
            exact hP
          rw [this]
          exact hd
      · exact hd
  | update newObj view =>
    simp only [Store.step]
    split
    · exact hd
    · rename_i oldObj hfind
      have holdmem : oldObj ∈ s := List.mem_of_find?_eq_some hfind
      have holdname : oldObj.Name = newObj.Name := by
        simpa using List.find?_some hfind
      split
      · rename_i hcommit
        rw [Bool.and_eq_true] at hcommit
        obtain ⟨hperm, hallow⟩ := hcommit
        have hperm2 := List.isPerm_iff.1 hperm
        rw [List.countP_map]
        by_cases hP : (isDefault key newObj && newObj.Driver == d) = true
        · have hP2 : isDefault key newObj = true ∧ newObj.Driver = d := by simpa using hP
          have hnew : newObj.Annotations.index key = "true" := by
            simpa [isDefault] using hP2.1
          by_cases hold : oldObj.Annotations.index key = "true"
              ∧ oldObj.Driver = newObj.Driver
          · refine le_trans (List.countP_mono_left ?_) hd
            intro c hc hPc
            by_cases hname : c.Name = newObj.Name
            · have hco : c = oldObj :=
                List.inj_on_of_nodup_map hu hc holdmem (hname.trans holdname.symm)
              rw [hco]
              simp [isDefault, hold.1, hold.2, hP2.2]
            · simpa [hname] using hPc
          · have hno := no_conflict_of_allowed key newObj oldObj view hnew hold hallow
            refine le_trans (List.countP_mono_left ?_) (countP_name_le_one s hu newObj.Name)
            intro c hc hPc
            by_cases hname : c.Name = newObj.Name
            · simp [hname]
            · exfalso
              have h1 := hno c (hperm2.mem_iff.2 hc)
              have h2 : (isDefault key c && c.Driver == d) = true := by
                simpa [hname] using hPc
              rw [← hP2.2] at h2
              simp [conflictsWith, h2] at h1
        · refine le_trans (List.countP_mono_left ?_) hd
          intro c _ hPc
          by_cases hname : c.Name = newObj.Name
          · exfalso
            apply hP
            simpa [hname] using hPc
          · simpa [hname] using hPc
      · exact hd

theorem run_invariants (key : String) (ops : List Op) :
    ∀ s : Store, s.UniqueNames → s.AtMostOneDefault key →
      (s.run key ops).UniqueNames ∧ (s.run key ops).AtMostOneDefault key := by
  induction ops with
  | nil =>
    intro s hu hinv
    exact ⟨hu, hinv⟩
  | cons op rest ih =>
    intro s hu hinv
    exact ih (s.step key op) (step_uniqueNames key s op hu)
      (step_atMostOneDefault key s op hu hinv)

/-- An initial store: class `A`, default for driver `d1`. -/
def sampleStore : Store := [defaultClass "is-default" "A" "d1"]

/-- Requests run against `sampleStore`: a second default for `d1` (refused), a default
for `d2`, a move of `A` to `d2` (refused), a re-save of `A`, a create validated
against a stale view (not committed), the removal of `A`, and a new default for `d1`. -/
def sampleOps : List Op :=
  [ .create (defaultClass "is-default" "B" "d1") [defaultClass "is-default" "A" "d1"],
    .create (defaultClass "is-default" "C" "d2") [defaultClass "is-default" "A" "d1"],
    .update (defaultClass "is-default" "A" "d2")
      [defaultClass "is-default" "C" "d2", defaultClass "is-default" "A" "d1"],
    .update (defaultClass "is-default" "A" "d1")
      [defaultClass "is-default" "C" "d2", defaultClass "is-default" "A" "d1"],
    .create (defaultClass "is-default" "E" "d2") [],
    .delete "A",
    .create (defaultClass "is-default" "B" "d1") [defaultClass "is-default" "C" "d2"] ]

/-- Claim C1. Sequential uniqueness invariant: starting from a store with unique
names in which every driver has at most one class whose default annotation is
`"true"`, every finite sequence of deletes, creates and updates, where a create or
update is committed only when the lister returns the current store and
`decideGroupSnapshotClassV1Beta1` allows it, ends in a store in which every driver
still has at most one such class. -/
theorem store_keeps_at_most_one_default ( IsDefaultGroupSnapshotClassAnnotation : String)
    (s : Store) (ops : List Op) (huniq : s.UniqueNames)
    (hinv : s.AtMostOneDefault IsDefaultGroupSnapshotClassAnnotation) :
    (s.run IsDefaultGroupSnapshotClassAnnotation ops).AtMostOneDefault
      IsDefaultGroupSnapshotClassAnnotation :=
  (run_invariants IsDefaultGroupSnapshotClassAnnotation ops s huniq hinv).2

/-- Claim C1 at a concrete input: `sampleOps` run on `sampleStore`, which ends with `C`
default for `d2` and `B` default for `d1`. -/
theorem store_keeps_at_most_one_default_witness :
    sampleStore.UniqueNames
      ∧ sampleStore.AtMostOneDefault "is-default"
      ∧ sampleStore.run "is-default" sampleOps
          = [defaultClass "is-default" "C" "d2", defaultClass "is-default" "B" "d1"]
      ∧ (sampleStore.run "is-default" sampleOps).AtMostOneDefault "is-default" :=
  have hu : sampleStore.UniqueNames := by
    unfold Store.UniqueNames
    decide
  have hinv : sampleStore.AtMostOneDefault "is-default" := fun d =>
    List.length_filter_le _ sampleStore
  ⟨hu, hinv, by decide, store_keeps_at_most_one_default "is-default" sampleStore sampleOps hu hinv⟩

/-! ## Dependence of the verdict on the enumeration -/

/-- On a successful enumeration the verdict is an allowance exactly when one of the
two guards returns early or no listed class conflicts with the submitted class. -/
theorem allowed_ok_iff (key : String) (n o : VolumeGroupSnapshotClass)
    (L : List VolumeGroupSnapshotClass) :
    (decideGroupSnapshotClassV1Beta1 key n o (.ok L)).Allowed = true ↔
      (n.Annotations.index key ≠ "true"
        ∨ (o.Annotations.index key = "true" ∧ o.Driver = n.Driver)
        ∨ ∀ c ∈ L, conflictsWith key n c = false) := by
  by_cases hnew : n.Annotations.index key = "true"
  · by_cases hold : o.Annotations.index key = "true" ∧ o.Driver = n.Driver
    · rw [decide_resave_eq key n o _ hold.1 hold.2]
      exact ⟨fun _ => Or.inr (Or.inl hold), fun _ => rfl⟩
    · constructor
      · intro h
        exact Or.inr (Or.inr (no_conflict_of_allowed key n o L hnew hold h))
      · intro h
        have hno : ∀ c ∈ L, conflictsWith key n c = false := by
          rcases h with h | h | h
          · exact absurd hnew h
          · exact absurd h hold
          · exact h
        rw [decide_ok_eq_find key n o L hnew hold]
        have hf : L.find? (conflictsWith key n) = none := by
          rw [List.find?_eq_none]
          intro c hc
          simp [hno c hc]
        rw [hf]
        rfl
  · rw [decide_not_default_eq key n o _ hnew]
    exact ⟨fun _ => Or.inl hnew, fun _ => rfl⟩

/-- Claim C11. Order of enumeration is irrelevant to the allow/deny decision: for
every submitted class, old class and two lists that are permutations of each other,
the value of `Allowed` is the same on both lists. -/
theorem decide_allowed_perm ( IsDefaultGroupSnapshotClassAnnotation : String)
    (newObj oldObj : VolumeGroupSnapshotClass) (L1 L2 : List VolumeGroupSnapshotClass)
    (hperm : L1.Perm L2) :
    (decideGroupSnapshotClassV1Beta1 IsDefaultGroupSnapshotClassAnnotation
        newObj oldObj (.ok L1)).Allowed
      = (decideGroupSnapshotClassV1Beta1 IsDefaultGroupSnapshotClassAnnotation
        newObj oldObj (.ok L2)).Allowed := by
  have hiff : (decideGroupSnapshotClassV1Beta1 IsDefaultGroupSnapshotClassAnnotation
        newObj oldObj (.ok L1)).Allowed = true
      ↔ (decideGroupSnapshotClassV1Beta1 IsDefaultGroupSnapshotClassAnnotation
        newObj oldObj (.ok L2)).Allowed = true := by
    rw [allowed_ok_iff, allowed_ok_iff]
    have hmem : (∀ c ∈ L1, conflictsWith IsDefaultGroupSnapshotClassAnnotation newObj c = false)
        ↔ (∀ c ∈ L2, conflictsWith IsDefaultGroupSnapshotClassAnnotation newObj c = false) :=
      ⟨fun h c hc => h c (hperm.mem_iff.2 hc), fun h c hc => h c (hperm.mem_iff.1 hc)⟩
    rw [hmem]
  exact Bool.eq_iff_iff.2 hiff

/-- Claim C11 at a concrete input: the conflicting class `A` comes first in one list
and last in the other, and the create of `B` is refused on both. -/
theorem decide_allowed_perm_witness :
    (decideGroupSnapshotClassV1Beta1 "is-default" (defaultClass "is-default" "B" "d1")
        emptyClass
        (.ok [defaultClass "is-default" "A" "d1", plainClass "P" "d1",
          defaultClass "is-default" "C" "d2"])).Allowed
      = (decideGroupSnapshotClassV1Beta1 "is-default" (defaultClass "is-default" "B" "d1")
        emptyClass
        (.ok [defaultClass "is-default" "C" "d2", plainClass "P" "d1",
          defaultClass "is-default" "A" "d1"])).Allowed :=
  decide_allowed_perm "is-default" (defaultClass "is-default" "B" "d1") emptyClass
    [defaultClass "is-default" "A" "d1", plainClass "P" "d1",
      defaultClass "is-default" "C" "d2"]
    [defaultClass "is-default" "C" "d2", plainClass "P" "d1",
      defaultClass "is-default" "A" "d1"]
    (by decide)

/-! ## The doc comment of `Admit` -/

/-- Externals with a small deserializer: the payload `[1]` is default class `B` of
driver `d1`, the empty payload is the zero class, anything else does not decode;
`toV1AdmissionResponse` puts the error text into the result message. -/
def sampleExternals : Externals :=
  { GroupName := "groupsnapshot.storage.k8s.io"
    Decode := fun raw =>
      if raw = [1] then .ok (defaultClass "is-default" "B" "d1")
      else if raw = [] then .ok emptyClass
      else .error "cannot decode"
    toV1AdmissionResponse := fun err =>
      { Allowed := false, Result := some { Message := err }, Patch := none, PatchType := none }
    resourceError := fun _ _ => "unexpected resource" }

/-- A Create review for a VolumeGroupSnapshotClass whose payload is class `B`. -/
def createReview : AdmissionReview :=
  { Request := some
      { Resource := GroupSnapshotClassV1Beta1GVR sampleExternals
        Operation := Create
        Object := [1]
        OldObject := [] } }

/-- Claim C12 evaluated on the code: the doc comment of `Admit` announces a label
`added-label=yes` added to the object, but for a Create review of a default class,
with no class listed, `Admit` answers `Allowed = true` with an empty message and
carries no patch and no patch type. -/
theorem Admit_create_carries_no_patch :
    Admit sampleExternals "is-default" (.ok []) createReview
      = some { Allowed := true, Result := some { Message := "" }, Patch := none, PatchType := none } := by
  decide

/-! ## Order of enumeration and the message -/

/-- Claim C13, as stated, fails: the loop follows the order of the returned slice, so
with two default classes `A` and `Z` of driver `d1` the message names `A` on one
list and `Z` on its permutation. -/
theorem decide_message_depends_on_order :
    [defaultClass "is-default" "A" "d1", defaultClass "is-default" "Z" "d1"].Perm
        [defaultClass "is-default" "Z" "d1", defaultClass "is-default" "A" "d1"]
      ∧ (decideGroupSnapshotClassV1Beta1 "is-default" (defaultClass "is-default" "B" "d1")
          emptyClass
          (.ok [defaultClass "is-default" "A" "d1", defaultClass "is-default" "Z" "d1"])).Result
        = some { Message := "default group snapshot class: A already exists for driver: d1" }
      ∧ (decideGroupSnapshotClassV1Beta1 "is-default" (defaultClass "is-default" "B" "d1")
          emptyClass
          (.ok [defaultClass "is-default" "Z" "d1", defaultClass "is-default" "A" "d1"])).Result
        = some { Message := "default group snapshot class: Z already exists for driver: d1" }
      ∧ (decideGroupSnapshotClassV1Beta1 "is-default" (defaultClass "is-default" "B" "d1")
          emptyClass
          (.ok [defaultClass "is-default" "A" "d1", defaultClass "is-default" "Z" "d1"])).Result
        ≠ (decideGroupSnapshotClassV1Beta1 "is-default" (defaultClass "is-default" "B" "d1")
          emptyClass
          (.ok [defaultClass "is-default" "Z" "d1",
            defaultClass "is-default" "A" "d1"])).Result := by
  decide

/-- Claim C13, amended. The classes are visited in the order of the returned slice.
For two lists that are permutations of each other the whole response, message
included, is the same whenever the classes of the list that are default for the
driver of the submitted class all bear one name (in particular when there is at
most one such class). -/
theorem decide_perm_of_one_conflict_name ( IsDefaultGroupSnapshotClassAnnotation : String)
    (newObj oldObj : VolumeGroupSnapshotClass) (L1 L2 : List VolumeGroupSnapshotClass)
    (hperm : L1.Perm L2)
    (hone : ∀ c1 ∈ L1, ∀ c2 ∈ L1,
      (c1.Annotations.index IsDefaultGroupSnapshotClassAnnotation = "true"
        ∧ c1.Driver = newObj.Driver) →
      (c2.Annotations.index IsDefaultGroupSnapshotClassAnnotation = "true"
        ∧ c2.Driver = newObj.Driver) →
      c1.Name = c2.Name) :
    decideGroupSnapshotClassV1Beta1 IsDefaultGroupSnapshotClassAnnotation
        newObj oldObj (.ok L1)
      = decideGroupSnapshotClassV1Beta1 IsDefaultGroupSnapshotClassAnnotation
        newObj oldObj (.ok L2) := by
  by_cases hnew : newObj.Annotations.index IsDefaultGroupSnapshotClassAnnotation = "true"
  · by_cases hold : oldObj.Annotations.index IsDefaultGroupSnapshotClassAnnotation = "true"
        ∧ oldObj.Driver = newObj.Driver
    · rw [decide_resave_eq _ newObj oldObj _ hold.1 hold.2,
        decide_resave_eq _ newObj oldObj _ hold.1 hold.2]
    · rw [decide_ok_eq_find _ newObj oldObj L1 hnew hold,
        decide_ok_eq_find _ newObj oldObj L2 hnew hold]
      cases hf1 : L1.find? (conflictsWith IsDefaultGroupSnapshotClassAnnotation newObj) with
      | none =>
        cases hf2 : L2.find? (conflictsWith IsDefaultGroupSnapshotClassAnnotation newObj) with
        | none => rfl
        | some c2 =>
          exact absurd (List.find?_some hf2)
            (List.find?_eq_none.1 hf1 c2 (hperm.mem_iff.2 (List.mem_of_find?_eq_some hf2)))
      | some c1 =>
        cases hf2 : L2.find? (conflictsWith IsDefaultGroupSnapshotClassAnnotation newObj) with
        | none =>
          exact absurd (List.find?_some hf1)
            (List.find?_eq_none.1 hf2 c1 (hperm.mem_iff.1 (List.mem_of_find?_eq_some hf1)))
        | some c2 =>
          have hname : c1.Name = c2.Name :=
            hone c1 (List.mem_of_find?_eq_some hf1) c2
              (hperm.mem_iff.2 (List.mem_of_find?_eq_some hf2))
              ((conflictsWith_iff _ newObj c1).1 (List.find?_some hf1))
              ((conflictsWith_iff _ newObj c2).1 (List.find?_some hf2))
          simp only [hname]
  · rw [decide_not_default_eq _ newObj oldObj _ hnew,
      decide_not_default_eq _ newObj oldObj _ hnew]

/-- Claim C13, amended, at a concrete input: one class is default for `d1`, listed
first in one list and last in the other. -/
theorem decide_perm_of_one_conflict_name_witness :
    decideGroupSnapshotClassV1Beta1 "is-default" (defaultClass "is-default" "B" "d1")
        emptyClass
        (.ok [defaultClass "is-default" "A" "d1", defaultClass "is-default" "C" "d2"])
      = decideGroupSnapshotClassV1Beta1 "is-default" (defaultClass "is-default" "B" "d1")
        emptyClass
        (.ok [defaultClass "is-default" "C" "d2", defaultClass "is-default" "A" "d1"]) :=
  decide_perm_of_one_conflict_name "is-default" (defaultClass "is-default" "B" "d1")
    emptyClass
    [defaultClass "is-default" "A" "d1", defaultClass "is-default" "C" "d2"]
    [defaultClass "is-default" "C" "d2", defaultClass "is-default" "A" "d1"]
    (by decide) (by decide)

/-! ## Decisions taken against one snapshot -/

/-- Claim C14. Point-in-time check only: when the successfully returned list `L`
holds no default class of driver `d`, two creates of differently named classes `B1`
and `B2`, both default and both of driver `d`, are both allowed when each is decided
against that same `L`; the store with both writes committed has two default classes
for `d`, so it no longer has the at-most-one property. -/
theorem decide_same_snapshot_allows_both ( IsDefaultGroupSnapshotClassAnnotation : String)
    (L : List VolumeGroupSnapshotClass) (d : String) (B1 B2 : VolumeGroupSnapshotClass)
    (hL : ∀ c ∈ L, ¬ (c.Annotations.index IsDefaultGroupSnapshotClassAnnotation = "true"
      ∧ c.Driver = d))
    (hname : B1.Name ≠ B2.Name)
    (h1 : B1.Annotations.index IsDefaultGroupSnapshotClassAnnotation = "true")
    (h2 : B2.Annotations.index IsDefaultGroupSnapshotClassAnnotation = "true")
    (hd1 : B1.Driver = d) (hd2 : B2.Driver = d) :
    (decideGroupSnapshotClassV1Beta1 IsDefaultGroupSnapshotClassAnnotation
        B1 emptyClass (.ok L)).Allowed = true
      ∧ (decideGroupSnapshotClassV1Beta1 IsDefaultGroupSnapshotClassAnnotation
        B2 emptyClass (.ok L)).Allowed = true
      ∧ Store.defaultCount IsDefaultGroupSnapshotClassAnnotation (L ++ [B1, B2]) d = 2
      ∧ ¬ Store.AtMostOneDefault IsDefaultGroupSnapshotClassAnnotation (L ++ [B1, B2]) := by
  have _ := hname
  have hno : ∀ B : VolumeGroupSnapshotClass, B.Driver = d →
      ∀ c ∈ L, conflictsWith IsDefaultGroupSnapshotClassAnnotation B c = false := by
    intro B hB c hc
    have h := hL c hc
    rw [← hB, ← conflictsWith_iff] at h
    simpa using h
  have hcount : Store.defaultCount IsDefaultGroupSnapshotClassAnnotation (L ++ [B1, B2]) d
      = 2 := by
    rw [defaultCount_eq_countP, List.countP_append]
    have hzero : L.countP (fun c =>
        isDefault IsDefaultGroupSnapshotClassAnnotation c && c.Driver == d) = 0 := by
      rw [List.countP_eq_zero]
      intro c hc
      have h := hL c hc
      simpa [isDefault] using h
    rw [hzero]
    simp [List.countP_cons, isDefault, h1, h2, hd1, hd2]
  refine ⟨(allowed_ok_iff _ B1 emptyClass L).2 (Or.inr (Or.inr (hno B1 hd1))),
    (allowed_ok_iff _ B2 emptyClass L).2 (Or.inr (Or.inr (hno B2 hd2))), hcount, ?_⟩
  intro hinv
  have h := hinv d
  rw [hcount] at h
  exact absurd h (by decide)

/-- Claim C14 at a concrete input: only `C`, default for `d2`, is listed; `B1` and `B2`
both claim the default for `d1`. -/
theorem decide_same_snapshot_allows_both_witness :
    (decideGroupSnapshotClassV1Beta1 "is-default" (defaultClass "is-default" "B1" "d1")
        emptyClass (.ok [defaultClass "is-default" "C" "d2"])).Allowed = true
      ∧ (decideGroupSnapshotClassV1Beta1 "is-default" (defaultClass "is-default" "B2" "d1")
        emptyClass (.ok [defaultClass "is-default" "C" "d2"])).Allowed = true
      ∧ Store.defaultCount "is-default"
          ([defaultClass "is-default" "C" "d2"]
            ++ [defaultClass "is-default" "B1" "d1", defaultClass "is-default" "B2" "d1"])
          "d1" = 2
      ∧ ¬ Store.AtMostOneDefault "is-default"
          ([defaultClass "is-default" "C" "d2"]
            ++ [defaultClass "is-default" "B1" "d1", defaultClass "is-default" "B2" "d1"]) :=
  decide_same_snapshot_allows_both "is-default" [defaultClass "is-default" "C" "d2"] "d1"
    (defaultClass "is-default" "B1" "d1") (defaultClass "is-default" "B2" "d1")
    (by decide) (by decide) (by decide) (by decide) (by decide) (by decide)

/-! ## An update and the committed version of the same class -/

/-- For a fixed driver the conflict message determines the class name it carries. -/
theorem conflictMessage_name_injective (a b d : String)
    (h : conflictMessage a d = conflictMessage b d) : a = b := by
  have h2 := congrArg String.data h
  simp only [conflictMessage, String.data_append, List.append_assoc,
    List.append_cancel_left_eq, List.append_cancel_right_eq] at h2
  exact String.ext h2

/-- Claim C15. No self-conflict under a consistent view: the loop never compares
names, yet when the old class has the name of the submitted class and the
successfully returned list `L` has unique names and its only entry of that name (if
any) is the old class, every denial names a class `c` of `L`, the first conflicting
one, whose name differs from the name of the submitted class; the message is not the
one that would name the submitted class. -/
theorem decide_no_self_conflict ( IsDefaultGroupSnapshotClassAnnotation : String)
    (newObj oldObj : VolumeGroupSnapshotClass) (L : List VolumeGroupSnapshotClass)
    (hname : oldObj.Name = newObj.Name)
    (huniq : (L.map (fun c => c.Name)).Nodup)
    (hview : ∀ c ∈ L, c.Name = newObj.Name → c = oldObj)
    (hdeny : (decideGroupSnapshotClassV1Beta1 IsDefaultGroupSnapshotClassAnnotation
        newObj oldObj (.ok L)).Allowed = false) :
    (∃ c : VolumeGroupSnapshotClass,
      L.find? (fun c => c.Annotations.index IsDefaultGroupSnapshotClassAnnotation == "true"
          && c.Driver == newObj.Driver) = some c
      ∧ (decideGroupSnapshotClassV1Beta1 IsDefaultGroupSnapshotClassAnnotation
          newObj oldObj (.ok L)).Result =
        some { Message := "default group snapshot class: " ++ c.Name
          ++ " already exists for driver: " ++ newObj.Driver }
      ∧ c.Name ≠ newObj.Name)
    ∧ (decideGroupSnapshotClassV1Beta1 IsDefaultGroupSnapshotClassAnnotation
          newObj oldObj (.ok L)).Result ≠
        some { Message := "default group snapshot class: " ++ newObj.Name
          ++ " already exists for driver: " ++ newObj.Driver } := by
  have _ := hname
  have _ := huniq
  have hfun : (fun c : VolumeGroupSnapshotClass =>
      c.Annotations.index IsDefaultGroupSnapshotClassAnnotation == "true"
        && c.Driver == newObj.Driver)
      = conflictsWith IsDefaultGroupSnapshotClassAnnotation newObj := rfl
  rw [hfun]
  by_cases hnew : newObj.Annotations.index IsDefaultGroupSnapshotClassAnnotation = "true"
  · by_cases hold : oldObj.Annotations.index IsDefaultGroupSnapshotClassAnnotation = "true"
        ∧ oldObj.Driver = newObj.Driver
    · rw [decide_resave_eq _ newObj oldObj _ hold.1 hold.2] at hdeny
      simp [allowResponse] at hdeny
    · rw [decide_ok_eq_find _ newObj oldObj L hnew hold] at hdeny ⊢
      cases hf : L.find? (conflictsWith IsDefaultGroupSnapshotClassAnnotation newObj) with
      | none =>
        rw [hf] at hdeny
        simp [allowResponse] at hdeny
      | some c =>
        have hc := (conflictsWith_iff _ newObj c).1 (List.find?_some hf)
        have hne : c.Name ≠ newObj.Name := by
          intro heq
          have hco := hview c (List.mem_of_find?_eq_some hf) heq
          rw [hco] at hc
          exact hold hc
        refine ⟨⟨c, rfl, rfl, hne⟩, ?_⟩
        intro hmsg
        have h3 : conflictMessage c.Name newObj.Driver
            = conflictMessage newObj.Name newObj.Driver := by
          simpa [denyResponse, conflictMessage] using hmsg
        exact hne (conflictMessage_name_injective _ _ _ h3)
  · rw [decide_not_default_eq _ newObj oldObj _ hnew] at hdeny
    simp [allowResponse] at hdeny

/-- Claim C15 at a concrete input: `A` moves from driver `d1` to `d2` while `C` is
default for `d2`; the list holds the committed `A`, and the denial names `C`. -/
theorem decide_no_self_conflict_witness :
    (∃ c : VolumeGroupSnapshotClass,
      [defaultClass "is-default" "A" "d1", defaultClass "is-default" "C" "d2"].find?
        (fun c => c.Annotations.index "is-default" == "true"
          && c.Driver == (defaultClass "is-default" "A" "d2").Driver) = some c
      ∧ (decideGroupSnapshotClassV1Beta1 "is-default" (defaultClass "is-default" "A" "d2")
          (defaultClass "is-default" "A" "d1")
          (.ok [defaultClass "is-default" "A" "d1",
            defaultClass "is-default" "C" "d2"])).Result =
        some { Message := "default group snapshot class: " ++ c.Name
          ++ " already exists for driver: " ++ (defaultClass "is-default" "A" "d2").Driver }
      ∧ c.Name ≠ (defaultClass "is-default" "A" "d2").Name)
    ∧ (decideGroupSnapshotClassV1Beta1 "is-default" (defaultClass "is-default" "A" "d2")
          (defaultClass "is-default" "A" "d1")
          (.ok [defaultClass "is-default" "A" "d1",
            defaultClass "is-default" "C" "d2"])).Result ≠
        some { Message := "default group snapshot class: "
          ++ (defaultClass "is-default" "A" "d2").Name
          ++ " already exists for driver: " ++ (defaultClass "is-default" "A" "d2").Driver } :=
  decide_no_self_conflict "is-default" (defaultClass "is-default" "A" "d2")
    (defaultClass "is-default" "A" "d1")
    [defaultClass "is-default" "A" "d1", defaultClass "is-default" "C" "d2"]
    (by decide) (by decide) (by decide) (by decide)

/-! ## Monotonicity in the enumeration -/

/-- Claim C16. Monotonicity in the existing set: for successfully returned lists `L`
and `L2` such that every element of `L` also occurs in `L2`, an allowance on `L2`
gives an allowance on `L`, and a denial on `L` gives a denial on `L2`. -/
theorem decide_allowed_mono ( IsDefaultGroupSnapshotClassAnnotation : String)
    (newObj oldObj : VolumeGroupSnapshotClass) (L L2 : List VolumeGroupSnapshotClass)
    (hsub : ∀ c ∈ L, c ∈ L2) :
    ((decideGroupSnapshotClassV1Beta1 IsDefaultGroupSnapshotClassAnnotation
        newObj oldObj (.ok L2)).Allowed = true →
      (decideGroupSnapshotClassV1Beta1 IsDefaultGroupSnapshotClassAnnotation
        newObj oldObj (.ok L)).Allowed = true)
    ∧ ((decideGroupSnapshotClassV1Beta1 IsDefaultGroupSnapshotClassAnnotation
        newObj oldObj (.ok L)).Allowed = false →
      (decideGroupSnapshotClassV1Beta1 IsDefaultGroupSnapshotClassAnnotation
        newObj oldObj (.ok L2)).Allowed = false) := by
  have hmono : (decideGroupSnapshotClassV1Beta1 IsDefaultGroupSnapshotClassAnnotation
        newObj oldObj (.ok L2)).Allowed = true →
      (decideGroupSnapshotClassV1Beta1 IsDefaultGroupSnapshotClassAnnotation
        newObj oldObj (.ok L)).Allowed = true := by
    intro h
    rw [allowed_ok_iff] at h ⊢
    rcases h with h | h | h
    · exact Or.inl h
    · exact Or.inr (Or.inl h)
    · exact Or.inr (Or.inr (fun c hc => h c (hsub c hc)))
  refine ⟨hmono, ?_⟩
  intro hdeny
  cases h2 : (decideGroupSnapshotClassV1Beta1 IsDefaultGroupSnapshotClassAnnotation
      newObj oldObj (.ok L2)).Allowed with
  | false => rfl
  | true =>
    rw [hmono h2] at hdeny
    exact absurd hdeny (by decide)

/-- Claim C16 at a concrete input: the create of `B` is refused on the list holding
`A`, default for `d1`, and stays refused on the larger list that adds `C`. -/
theorem decide_allowed_mono_witness :
    ((decideGroupSnapshotClassV1Beta1 "is-default" (defaultClass "is-default" "B" "d1")
        emptyClass
        (.ok [defaultClass "is-default" "C" "d2",
          defaultClass "is-default" "A" "d1"])).Allowed = true →
      (decideGroupSnapshotClassV1Beta1 "is-default" (defaultClass "is-default" "B" "d1")
        emptyClass (.ok [defaultClass "is-default" "A" "d1"])).Allowed = true)
    ∧ ((decideGroupSnapshotClassV1Beta1 "is-default" (defaultClass "is-default" "B" "d1")
        emptyClass (.ok [defaultClass "is-default" "A" "d1"])).Allowed = false →
      (decideGroupSnapshotClassV1Beta1 "is-default" (defaultClass "is-default" "B" "d1")
        emptyClass
        (.ok [defaultClass "is-default" "C" "d2",
          defaultClass "is-default" "A" "d1"])).Allowed = false) :=
  decide_allowed_mono "is-default" (defaultClass "is-default" "B" "d1") emptyClass
    [defaultClass "is-default" "A" "d1"]
    [defaultClass "is-default" "C" "d2", defaultClass "is-default" "A" "d1"]
    (by decide)

end Webhook
